import Mathlib

/-!
Verification of the agent scheduling, inter-agent messaging and
consensus/voting subsystem of the lnmarkets trading bot.

The development shallowly embeds the relevant TypeScript sources:
  * the MessageBus proposal/voting engine (message-bus module),
  * the BaseAgent scheduler tick (base-agent module),
  * the ExecutionAgent signal queue and trade execution (execution-agent module),
  * the MarketAnalyst recommendation builder (market-analyst module),
  * the SwarmCoordinator inter-agent wiring (swarm-coordinator module).

JavaScript Maps are embedded as insertion-ordered association lists over
String keys, numbers as rationals, Date values as integer milliseconds,
and thrown/caught exceptions as explicit Except / Option values.
-/

/-- Insertion-ordered association list lookup, embedding JavaScript Map.get:
returns the value of the first (unique) entry with the given key. -/
def assocGet {α : Type} (k : String) : List (String × α) → Option α
  | [] => none
  | (k', v) :: rest => if k' = k then some v else assocGet k rest

/-- Insertion-ordered association list update, embedding JavaScript Map.set:
replaces the value at an existing key in place, otherwise appends a new
entry at the end. -/
def assocSet {α : Type} (k : String) (v : α) : List (String × α) → List (String × α)
  | [] => [(k, v)]
  | (k', v') :: rest => if k' = k then (k, v) :: rest else (k', v') :: assocSet k v rest

/-! ## Message Bus data model (message-bus module) -/

/-- Trade direction, from the TypeScript union 'long' | 'short'. -/
inductive Direction
  | long
  | short
deriving DecidableEq, Repr

/-- Vote decision, from the TypeScript union 'approve' | 'reject' | 'abstain'. -/
inductive VoteDecision
  | approve
  | reject
  | abstain
deriving DecidableEq, Repr

/-- AgentVote record of the message-bus module. -/
structure AgentVote where
  agentId : String
  vote : VoteDecision
  confidence : ℚ
  reason : String
  timestamp : ℤ
deriving DecidableEq, Repr

/-- Proposal status, from the union 'pending' | 'approved' | 'rejected' | 'executed'. -/
inductive ProposalStatus
  | pending
  | approved
  | rejected
  | executed
deriving DecidableEq, Repr

/-- TradeProposal record of the message-bus module; the votes Map is an
insertion-ordered association list keyed by agent id. -/
structure TradeProposal where
  id : String
  direction : Direction
  confidence : ℚ
  reason : String
  proposedBy : String
  timestamp : ℤ
  votes : List (String × AgentVote)
  status : ProposalStatus
deriving DecidableEq, Repr

/-- ConsensusResult record returned by evaluateConsensus. -/
structure ConsensusResult where
  proposalId : String
  approved : Bool
  totalVotes : ℕ
  approveVotes : ℕ
  rejectVotes : ℕ
  abstainVotes : ℕ
  averageConfidence : ℚ
  reasons : List String
deriving DecidableEq, Repr

/-- Mutable state of the MessageBus class: the proposals Map and the
consensus configuration. Message history and event emission are external
effects not tracked by the claims below. -/
structure MessageBus where
  proposals : List (String × TradeProposal)
  consensusThreshold : ℚ
  minVotesRequired : ℕ
deriving DecidableEq, Repr

/-- Field defaults of the MessageBus class body. -/
def MessageBus.init : MessageBus :=
  { proposals := [], consensusThreshold := 6/10, minVotesRequired := 3 }

/-- Embedding of MessageBus.createProposal. The generated id and the
Date.now timestamp are passed as parameters. The given confidence is stored
as-is. Returns the updated bus and the created proposal. -/
def MessageBus.createProposal (bus : MessageBus) (proposedBy : String)
    (direction : Direction) (confidence : ℚ) (reason : String)
    (id : String) (timestamp : ℤ) : MessageBus × TradeProposal :=
  let proposal : TradeProposal :=
    { id := id
      direction := direction
      confidence := confidence
      reason := reason
      proposedBy := proposedBy
      timestamp := timestamp
      votes := []
      status := .pending }
  ({ bus with proposals := assocSet id proposal bus.proposals }, proposal)

/-- Embedding of MessageBus.evaluateConsensus. Returns the updated bus and
the ConsensusResult (none when the proposal is missing or not pending). -/
def MessageBus.evaluateConsensus (bus : MessageBus) (proposalId : String) :
    MessageBus × Option ConsensusResult :=
  match assocGet proposalId bus.proposals with
  | none => (bus, none)
  | some proposal =>
    if proposal.status ≠ .pending then (bus, none)
    else
      let votes := proposal.votes.map Prod.snd
      let approveVotes := votes.filter (fun v => v.vote = .approve)
      let rejectVotes := votes.filter (fun v => v.vote = .reject)
      let abstainVotes := votes.filter (fun v => v.vote = .abstain)
      let effectiveVotes := approveVotes.length + rejectVotes.length
      let approvalRate : ℚ :=
        if effectiveVotes > 0 then (approveVotes.length : ℚ) / (effectiveVotes : ℚ) else 0
      let avgConfidence : ℚ :=
        if approveVotes.length > 0 then
          (approveVotes.map (fun v => v.confidence)).sum / (approveVotes.length : ℚ)
        else 0
      let approved : Bool :=
        decide (approvalRate ≥ bus.consensusThreshold ∧ avgConfidence ≥ 60)
      let result : ConsensusResult :=
        { proposalId := proposalId
          approved := approved
          totalVotes := votes.length
          approveVotes := approveVotes.length
          rejectVotes := rejectVotes.length
          abstainVotes := abstainVotes.length
          averageConfidence := avgConfidence
          reasons := votes.map (fun v => v.agentId ++ ": " ++ v.reason) }
      let proposal' := { proposal with
        status := if approved then ProposalStatus.approved else ProposalStatus.rejected }
      ({ bus with proposals := assocSet proposalId proposal' bus.proposals }, some result)

/-- Embedding of MessageBus.vote: no-op when the proposal is missing or not
pending; otherwise records/overwrites the agent's vote and, once the vote
count reaches minVotesRequired, triggers evaluateConsensus. -/
def MessageBus.vote (bus : MessageBus) (proposalId : String) (v : AgentVote) :
    MessageBus :=
  match assocGet proposalId bus.proposals with
  | none => bus
  | some proposal =>
    if proposal.status ≠ .pending then bus
    else
      let proposal' := { proposal with votes := assocSet v.agentId v proposal.votes }
      let bus' := { bus with proposals := assocSet proposalId proposal' bus.proposals }
      if proposal'.votes.length ≥ bus'.minVotesRequired then
        (MessageBus.evaluateConsensus bus' proposalId).1
      else bus'

/-- Embedding of MessageBus.setConsensusThreshold: clamps to [0.5, 1]. -/
def MessageBus.setConsensusThreshold (bus : MessageBus) (threshold : ℚ) : MessageBus :=
  { bus with consensusThreshold := max (1/2) (min 1 threshold) }

/-- Embedding of MessageBus.setMinVotesRequired: clamps to at least 1. -/
def MessageBus.setMinVotesRequired (bus : MessageBus) (votes : ℤ) : MessageBus :=
  { bus with minVotesRequired := (max 1 votes).toNat }

/-! ## Agent runtime (base-agent module) -/

/-- Agent status, from the union 'idle' | 'analyzing' | 'executing' | 'error' | 'disabled'. -/
inductive AgentStatus
  | idle
  | analyzing
  | executing
  | error
  | disabled
deriving DecidableEq, Repr

/-- AgentConfig record of the base-agent module. -/
structure AgentConfig where
  id : String
  name : String
  enabled : Bool
  intervalMs : ℤ
  maxRetries : ℕ
  timeoutMs : ℤ
deriving DecidableEq, Repr

/-- AgentMetrics record of the base-agent module. -/
structure AgentMetrics where
  lastRunAt : Option ℤ
  successCount : ℕ
  errorCount : ℕ
  avgExecutionTimeMs : ℚ
  lastError : Option String
deriving DecidableEq, Repr

/-- Mutable per-agent state owned by the BaseAgent scheduler (logs are
external output and not tracked). -/
structure AgentState where
  config : AgentConfig
  status : AgentStatus
  metrics : AgentMetrics
deriving DecidableEq, Repr

/-- Embedding of BaseAgent.updateAvgExecutionTime: rolling average over
successCount + errorCount completed runs. -/
def BaseAgent.updateAvgExecutionTime (m : AgentMetrics) (newTime : ℚ) : AgentMetrics :=
  let totalRuns : ℕ := m.successCount + m.errorCount
  if totalRuns = 0 then
    { m with avgExecutionTimeMs := newTime }
  else
    { m with avgExecutionTimeMs :=
        (m.avgExecutionTimeMs * ((totalRuns : ℚ) - 1) + newTime) / (totalRuns : ℚ) }

/-- Observable outcome of one BaseAgent.tick call: the resulting agent
state, whether execute() was invoked (and the status set while it ran),
whether an error event was emitted, whether end-of-tick state persistence
ran, and the exception (if any) escaping tick — the catch clause swallows
execute() failures, so raised is none on every path of the embedding. -/
structure TickOutcome where
  state : AgentState
  invokedExecute : Bool
  statusDuringExecute : Option AgentStatus
  emittedError : Bool
  persisted : Bool
  raised : Option String
deriving DecidableEq, Repr

/-- Embedding of BaseAgent.tick. The abstract execute() is represented by
its result: Except.error msg for a thrown error (msg the extracted message),
Except.ok () for success. startTime and endTime are the Date.now readings
around the execution. -/
def BaseAgent.tick (st : AgentState) (execResult : Except String Unit)
    (startTime endTime : ℤ) : TickOutcome :=
  if st.status = .analyzing ∨ st.status = .executing then
    { state := st
      invokedExecute := false
      statusDuringExecute := none
      emittedError := false
      persisted := false
      raised := none }
  else
    match execResult with
    | .error msg =>
      { state := { st with
          status := .error
          metrics := { st.metrics with
            errorCount := st.metrics.errorCount + 1
            lastError := some msg } }
        invokedExecute := true
        statusDuringExecute := some .analyzing
        emittedError := true
        persisted := false
        raised := none }
    | .ok _ =>
      let m1 := { st.metrics with
        successCount := st.metrics.successCount + 1
        lastError := none }
      let executionTime : ℚ := ((endTime - startTime : ℤ) : ℚ)
      let m2 := BaseAgent.updateAvgExecutionTime m1 executionTime
      { state := { st with
          status := .idle
          metrics := { m2 with lastRunAt := some endTime } }
        invokedExecute := true
        statusDuringExecute := some .analyzing
        emittedError := false
        persisted := true
        raised := none }

/-! ## Execution Agent (execution-agent module) -/

/-- TradeSignal record of the execution-agent module. -/
structure TradeSignal where
  id : String
  timestamp : ℤ
  direction : Direction
  confidence : ℚ
  reason : String
  source : String
  price : ℚ
deriving DecidableEq, Repr

/-- Executed-trade status, from the union 'open' | 'closed' | 'cancelled'. -/
inductive TradeStatus
  | open
  | closed
  | cancelled
deriving DecidableEq, Repr

/-- ExecutedTrade record of the execution-agent module. -/
structure ExecutedTrade where
  signalId : String
  positionId : String
  direction : Direction
  entryPrice : ℚ
  margin : ℚ
  leverage : ℚ
  stopLoss : ℚ
  takeProfit : ℚ
  executedAt : ℤ
  status : TradeStatus
  closedAt : Option ℤ
  pnl : Option ℚ
deriving DecidableEq, Repr

/-- Execution-specific configuration fields of ExecutionConfig. -/
structure ExecutionConfig where
  autoExecute : Bool
  minConfidence : ℚ
  maxOpenPositions : ℕ
  cooldownMs : ℤ
deriving DecidableEq, Repr

/-- Mutable state of the ExecutionAgent relevant to signal handling and
trade execution: the execution config, the pending-signal queue, the
executed-trade Map keyed by position id, the last trade time, and the
inherited BaseAgent status. -/
structure ExecutionAgentState where
  execConfig : ExecutionConfig
  pendingSignals : List TradeSignal
  executedTrades : List (String × ExecutedTrade)
  lastTradeTime : Option ℤ
  status : AgentStatus
deriving DecidableEq, Repr

/-- Embedding of ExecutionAgent.addSignal: drops the signal when its
confidence is below minConfidence, or when an opposite-direction signal in
the queue has a timestamp newer than now - 300000 ms; otherwise appends it
to the pending queue. now stands for Date.now(). -/
def ExecutionAgent.addSignal (st : ExecutionAgentState) (now : ℤ)
    (signal : TradeSignal) : ExecutionAgentState :=
  if signal.confidence < st.execConfig.minConfidence then
    st
  else if st.pendingSignals.any
      (fun s => decide (s.direction ≠ signal.direction ∧ s.timestamp > now - 300000)) then
    st
  else
    { st with pendingSignals := st.pendingSignals ++ [signal] }

/-- Position sizing returned by the Risk Manager's calculatePositionSize
(only the fields consumed by executeTrade). -/
structure PositionSizing where
  recommendedMargin : ℚ
  recommendedLeverage : ℚ
  stopLoss : ℚ
  takeProfit : ℚ
deriving DecidableEq, Repr

/-- External collaborator responses consumed by one executeTrade attempt:
the risk assessment (none when forceAssessment yields null), its
canOpenNewPosition gate, the ticker price, the sizing (none when
calculatePositionSize refuses), and the id of the opened position (none
embeds a thrown/caught openIsolatedPosition failure). -/
structure ExecuteTradeEnv where
  riskCanOpenNewPosition : Option Bool
  tickerLastPrice : ℚ
  sizing : Option PositionSizing
  openedPositionId : Option String
deriving DecidableEq, Repr

/-- Embedding of ExecutionAgent.executeTrade. Returns the updated state and
the ExecutedTrade (none on any guarded or failed path). Every path restores
status to idle via the finally clause. -/
def ExecutionAgent.executeTrade (st : ExecutionAgentState) (now : ℤ)
    (env : ExecuteTradeEnv) (signal : TradeSignal) :
    ExecutionAgentState × Option ExecutedTrade :=
  let stExec := { st with status := AgentStatus.executing }
  let idle := fun (s : ExecutionAgentState) => { s with status := AgentStatus.idle }
  if env.riskCanOpenNewPosition ≠ some true then
    (idle stExec, none)
  else
    match env.sizing with
    | none => (idle stExec, none)
    | some sizing =>
      match env.openedPositionId with
      | none => (idle stExec, none)
      | some positionId =>
        let executedTrade : ExecutedTrade :=
          { signalId := signal.id
            positionId := positionId
            direction := signal.direction
            entryPrice := env.tickerLastPrice
            margin := sizing.recommendedMargin
            leverage := sizing.recommendedLeverage
            stopLoss := sizing.stopLoss
            takeProfit := sizing.takeProfit
            executedAt := now
            status := .open
            closedAt := none
            pnl := none }
        (idle { stExec with
            executedTrades := assocSet positionId executedTrade stExec.executedTrades
            lastTradeTime := some now
            pendingSignals := stExec.pendingSignals.filter (fun s => s.id ≠ signal.id) },
         some executedTrade)

/-- Embedding of ExecutionAgent.processPendingSignals. runningPositions
stands for the result of getRunningIsolatedPositions (only its length is
used); env feeds the nested executeTrade call. Returns the updated state
and the executed trade, if any. -/
def ExecutionAgent.processPendingSignals (st : ExecutionAgentState) (now : ℤ)
    (runningPositions : List String) (env : ExecuteTradeEnv) :
    ExecutionAgentState × Option ExecutedTrade :=
  if st.pendingSignals.length = 0 then
    (st, none)
  else if (match st.lastTradeTime with
      | some t => decide (now - t < st.execConfig.cooldownMs)
      | none => false) then
    (st, none)
  else if runningPositions.length ≥ st.execConfig.maxOpenPositions then
    (st, none)
  else
    let sortedSignals :=
      st.pendingSignals.mergeSort (fun a b => decide (b.confidence ≤ a.confidence))
    let st1 := { st with pendingSignals := sortedSignals }
    match sortedSignals with
    | [] => (st1, none)
    | signal :: _ =>
      if now - signal.timestamp > 5 * 60 * 1000 then
        ({ st1 with pendingSignals := st1.pendingSignals.filter (fun s => s.id ≠ signal.id) },
         none)
      else
        ExecutionAgent.executeTrade st1 now env signal

/-- Embedding of ExecutionAgent.setAutoExecute. -/
def ExecutionAgent.setAutoExecute (st : ExecutionAgentState) (enabled : Bool) :
    ExecutionAgentState :=
  { st with execConfig := { st.execConfig with autoExecute := enabled } }

/-- Embedding of ExecutionAgent.clearPendingSignals. -/
def ExecutionAgent.clearPendingSignals (st : ExecutionAgentState) :
    ExecutionAgentState :=
  { st with pendingSignals := [] }

/-! ## Market Analyst (market-analyst module) -/

/-- Technical-analysis composite signal, from the union
'strong_buy' | 'buy' | 'neutral' | 'sell' | 'strong_sell'. -/
inductive TASignal
  | strong_buy
  | buy
  | neutral
  | sell
  | strong_sell
deriving DecidableEq, Repr

/-- Trend direction of the technical summary. -/
inductive TrendKind
  | bullish
  | bearish
  | neutral
deriving DecidableEq, Repr

/-- Momentum classification of the technical summary. -/
inductive MomentumKind
  | oversold
  | overbought
  | neutral
deriving DecidableEq, Repr

/-- Fields of the TechnicalSummary consumed by generateRecommendation. -/
structure TechnicalSummary where
  signal : TASignal
  score : ℚ
  trendKind : TrendKind
  trendStrength : ℚ
  momentum : MomentumKind
  rsi : ℚ
deriving DecidableEq, Repr

/-- Recommendation action, from the union
'long' | 'short' | 'hold' | 'close_longs' | 'close_shorts'. -/
inductive RecAction
  | hold
  | long
  | short
  | close_longs
  | close_shorts
deriving DecidableEq, Repr

/-- Recommendation produced by the Market Analyst. -/
structure Recommendation where
  action : RecAction
  confidence : ℚ
  reason : String
deriving DecidableEq, Repr

/-- Action selected by generateRecommendation from the TA composite
signal: long on (strong_)buy, short on (strong_)sell, hold otherwise. -/
def MarketAnalyst.recAction (summary : TechnicalSummary) : RecAction :=
  if summary.signal = .strong_buy ∨ summary.signal = .buy then .long
  else if summary.signal = .strong_sell ∨ summary.signal = .sell then .short
  else .hold

/-- Confidence of generateRecommendation after the base |score| and the
trend-confirmation bonus (+10 when a strong trend agrees with the action). -/
def MarketAnalyst.confidenceAfterTrend (summary : TechnicalSummary) : ℚ :=
  let action0 := MarketAnalyst.recAction summary
  let confidence0 : ℚ := |summary.score|
  if summary.trendKind = .bullish ∧ summary.trendStrength > 25 then
    (if action0 = .long then confidence0 + 10 else confidence0)
  else if summary.trendKind = .bearish ∧ summary.trendStrength > 25 then
    (if action0 = .short then confidence0 + 10 else confidence0)
  else confidence0

/-- Confidence of generateRecommendation after the momentum bonus (+15 when
oversold/overbought agrees with the action). -/
def MarketAnalyst.confidenceAfterMomentum (summary : TechnicalSummary) : ℚ :=
  let action0 := MarketAnalyst.recAction summary
  let c := MarketAnalyst.confidenceAfterTrend summary
  if summary.momentum = .oversold ∧ action0 = .long then c + 15
  else if summary.momentum = .overbought ∧ action0 = .short then c + 15
  else c

/-- Confidence of generateRecommendation after the pattern bonuses
(+10 engulfing, +5 hammer/shooting-star agreeing with the action),
before the final cap at 100. -/
def MarketAnalyst.confidenceAfterPatterns (summary : TechnicalSummary)
    (patterns : List String) : ℚ :=
  let action0 := MarketAnalyst.recAction summary
  let c2 := MarketAnalyst.confidenceAfterMomentum summary
  let c3 :=
    if patterns.contains "bullish_engulfing" ∧ action0 = .long then c2 + 10
    else if patterns.contains "bearish_engulfing" ∧ action0 = .short then c2 + 10
    else c2
  if patterns.contains "hammer" ∧ action0 = .long then c3 + 5
  else if patterns.contains "shooting_star" ∧ action0 = .short then c3 + 5
  else c3

/-- Embedding of MarketAnalystAgent.generateRecommendation: base confidence
is the absolute composite score, bonuses are added for agreeing trend,
momentum and candle patterns (through the confidenceAfter* helpers above),
exit actions replace hold on extreme momentum, and the final confidence is
capped at 100. -/
def MarketAnalyst.generateRecommendation (summary : TechnicalSummary)
    (patterns : List String) : Recommendation :=
  let action0 : RecAction := MarketAnalyst.recAction summary
  let confidence4 : ℚ := MarketAnalyst.confidenceAfterPatterns summary patterns
  let reasons1 : List String :=
    (if summary.signal ≠ .neutral then ["TA signal"] else []) ++
    (if summary.trendKind = .bullish ∧ summary.trendStrength > 25 then
      ["Strong bullish trend"]
    else if summary.trendKind = .bearish ∧ summary.trendStrength > 25 then
      ["Strong bearish trend"]
    else [])
  let reasons2 : List String :=
    reasons1 ++
    (if summary.momentum = .oversold ∧ action0 = .long then ["Oversold RSI"]
    else if summary.momentum = .overbought ∧ action0 = .short then ["Overbought RSI"]
    else [])
  let reasons3 : List String :=
    reasons2 ++
    (if patterns.contains "bullish_engulfing" ∧ action0 = .long then
      ["Bullish engulfing pattern"]
    else if patterns.contains "bearish_engulfing" ∧ action0 = .short then
      ["Bearish engulfing pattern"]
    else [])
  let reasons4 : List String :=
    reasons3 ++
    (if patterns.contains "hammer" ∧ action0 = .long then ["Hammer candle"]
    else if patterns.contains "shooting_star" ∧ action0 = .short then
      ["Shooting star candle"]
    else [])
  let actionFinal : RecAction :=
    if summary.momentum = .overbought ∧ action0 = .hold then .close_longs
    else if summary.momentum = .oversold ∧ action0 = .hold then .close_shorts
    else action0
  let reasonsFinal : List String :=
    reasons4 ++
    (if summary.momentum = .overbought ∧ action0 = .hold then
      ["Overbought conditions - consider taking profits"]
    else if summary.momentum = .oversold ∧ action0 = .hold then
      ["Oversold conditions - consider covering shorts"]
    else [])
  let confidenceFinal : ℚ := min 100 confidence4
  { action := actionFinal
    confidence := confidenceFinal
    reason := String.intercalate "; " reasonsFinal }

/-! ## Swarm Coordinator wiring (swarm-coordinator module) -/

/-- Risk alert severity, from the union 'info' | 'warning' | 'critical'. -/
inductive AlertLevel
  | info
  | warning
  | critical
deriving DecidableEq, Repr

/-- RiskAlert record of the risk-manager module (fields read by the
coordinator's wiring). -/
structure RiskAlert where
  level : AlertLevel
  type : String
  message : String
deriving DecidableEq, Repr

/-- Embedding of the coordinator's riskManager.on('alert') handler in
setupInterAgentCommunication: a critical daily_loss_limit alert disables
auto-execute on the Execution Agent; any other alert is ignored. -/
def SwarmCoordinator.onRiskAlert (ex : ExecutionAgentState) (alert : RiskAlert) :
    ExecutionAgentState :=
  if alert.level = .critical ∧ alert.type = "daily_loss_limit" then
    ExecutionAgent.setAutoExecute ex false
  else ex

/-- Embedding of the coordinator's riskManager.on('stop_trading') handler in
setupInterAgentCommunication: disables auto-execute and clears the pending
signal queue. -/
def SwarmCoordinator.onStopTrading (ex : ExecutionAgentState) :
    ExecutionAgentState :=
  ExecutionAgent.clearPendingSignals (ExecutionAgent.setAutoExecute ex false)

/-! ## Claim-level helper definitions -/

/-- Approve votes of a proposal, in Map insertion order. -/
def approveVotesOf (p : TradeProposal) : List AgentVote :=
  (p.votes.map Prod.snd).filter (fun v => v.vote = .approve)

/-- Reject votes of a proposal, in Map insertion order. -/
def rejectVotesOf (p : TradeProposal) : List AgentVote :=
  (p.votes.map Prod.snd).filter (fun v => v.vote = .reject)

/-- Approval rate of a proposal: approve / (approve + reject), abstains
excluded from the denominator, 0 when there are no approve or reject votes. -/
def approvalRateOf (p : TradeProposal) : ℚ :=
  if (approveVotesOf p).length + (rejectVotesOf p).length > 0 then
    ((approveVotesOf p).length : ℚ) /
      (((approveVotesOf p).length + (rejectVotesOf p).length : ℕ) : ℚ)
  else 0

/-- Mean confidence over the approve votes only, 0 when there are none. -/
def avgApproveConfidenceOf (p : TradeProposal) : ℚ :=
  if (approveVotesOf p).length > 0 then
    ((approveVotesOf p).map (fun v => v.confidence)).sum / ((approveVotesOf p).length : ℚ)
  else 0

/-! ## Concrete sample values used by the witnesses -/

/-- Configuration of a sample agent. -/
def sampleConfig : AgentConfig :=
  { id := "agent-1", name := "Sample Agent", enabled := true,
    intervalMs := 60000, maxRetries := 3, timeoutMs := 30000 }

/-- Fresh metrics of a sample agent. -/
def sampleMetrics : AgentMetrics :=
  { lastRunAt := none, successCount := 0, errorCount := 0,
    avgExecutionTimeMs := 0, lastError := none }

/-- Sample agent currently in the analyzing state. -/
def busyAgent : AgentState :=
  { config := sampleConfig, status := .analyzing, metrics := sampleMetrics }

/-- Sample agent currently idle. -/
def idleAgent : AgentState :=
  { config := sampleConfig, status := .idle, metrics := sampleMetrics }

/-- Sample execution configuration: auto-execute on, minimum confidence 70,
position cap 3, cooldown one minute. -/
def sampleExecConfig : ExecutionConfig :=
  { autoExecute := true, minConfidence := 70, maxOpenPositions := 3, cooldownMs := 60000 }

/-- Signal already sitting in the sample pending queue (long, recent). -/
def queuedSignal : TradeSignal :=
  { id := "sig-0", timestamp := 900000, direction := .long, confidence := 75,
    reason := "queued", source := "test", price := 50000 }

/-- Sample Execution Agent state with one recent long signal queued. -/
def sampleExecState : ExecutionAgentState :=
  { execConfig := sampleExecConfig, pendingSignals := [queuedSignal],
    executedTrades := [], lastTradeTime := none, status := .idle }

/-- Sample Execution Agent state whose last trade was 50 seconds ago. -/
def cooldownExecState : ExecutionAgentState :=
  { sampleExecState with lastTradeTime := some 950000 }

/-- Incoming signal below the minimum confidence. -/
def lowConfSignal : TradeSignal :=
  { id := "sig-low", timestamp := 990000, direction := .long, confidence := 50,
    reason := "weak", source := "test", price := 50000 }

/-- Incoming signal conflicting with the queued long signal. -/
def conflictSignal : TradeSignal :=
  { id := "sig-conf", timestamp := 990000, direction := .short, confidence := 90,
    reason := "conflict", source := "test", price := 50000 }

/-- Incoming signal that passes both addSignal guards. -/
def goodSignal : TradeSignal :=
  { id := "sig-good", timestamp := 990000, direction := .long, confidence := 80,
    reason := "good", source := "test", price := 50000 }

/-- Critical daily-loss-limit alert as built by the Risk Manager. -/
def dailyLossAlert : RiskAlert :=
  { level := .critical, type := "daily_loss_limit",
    message := "Daily loss exceeds limit" }

/-- Helper building a vote record. -/
def mkVote (agentId : String) (d : VoteDecision) (confidence : ℚ) : AgentVote :=
  { agentId := agentId, vote := d, confidence := confidence,
    reason := "because", timestamp := 0 }

/-- Pending proposal carrying 3 approve votes (confidence 70, 80, 90),
1 reject and 1 abstain. -/
def consensusProposal : TradeProposal :=
  { id := "prop-1", direction := .long, confidence := 80, reason := "setup",
    proposedBy := "analyst", timestamp := 0,
    votes :=
      [("a1", mkVote "a1" .approve 70),
       ("a2", mkVote "a2" .approve 80),
       ("a3", mkVote "a3" .approve 90),
       ("a4", mkVote "a4" .reject 40),
       ("a5", mkVote "a5" .abstain 50)],
    status := .pending }

/-- Message bus holding the sample pending proposal at the default
threshold 0.6. -/
def consensusBus : MessageBus :=
  { proposals := [("prop-1", consensusProposal)],
    consensusThreshold := 6/10, minVotesRequired := 3 }

/-- Already-approved proposal used to exercise the immutability guards. -/
def resolvedProposal : TradeProposal :=
  { consensusProposal with id := "prop-2", status := .approved }

/-- Message bus holding only the resolved proposal. -/
def resolvedBus : MessageBus :=
  { proposals := [("prop-2", resolvedProposal)],
    consensusThreshold := 6/10, minVotesRequired := 3 }

/-- Over-range vote used to exhibit the missing confidence clamping. -/
def overVote : AgentVote := mkVote "agent-x" .approve 150

/-- Sample technical summary: buy signal with composite score 45 and a
strong bullish trend. -/
def sampleSummary : TechnicalSummary :=
  { signal := .buy, score := 45, trendKind := .bullish, trendStrength := 30,
    momentum := .neutral, rsi := 50 }

/-! ## Association list lemmas -/

theorem assocGet_assocSet_self {α : Type} (k : String) (v : α) (l : List (String × α)) :
    assocGet k (assocSet k v l) = some v := by
  induction l with
  | nil => simp [assocSet, assocGet]
  | cons hd tl ih =>
    obtain ⟨k', v'⟩ := hd
    by_cases h : k' = k
    · simp [assocSet, assocGet, h]
    · simp [assocSet, assocGet, h, ih]

theorem assocGet_assocSet_ne {α : Type} {k k' : String} (v : α) (l : List (String × α))
    (h : k' ≠ k) : assocGet k' (assocSet k v l) = assocGet k' l := by
  have hk : k ≠ k' := Ne.symm h
  induction l with
  | nil => simp [assocSet, assocGet, hk]
  | cons hd tl ih =>
    obtain ⟨k₀, v₀⟩ := hd
    by_cases h0 : k₀ = k
    · subst h0
      simp [assocSet, assocGet, hk]
    · simp only [assocSet, if_neg h0, assocGet]
      by_cases h1 : k₀ = k'
      · simp [h1]
      · simp [h1, ih]

theorem keys_assocSet_subset {α : Type} (k : String) (v : α) (l : List (String × α)) :
    ∀ x ∈ (assocSet k v l).map Prod.fst, x = k ∨ x ∈ l.map Prod.fst := by
  induction l with
  | nil => simp [assocSet]
  | cons hd tl ih =>
    obtain ⟨k₀, v₀⟩ := hd
    by_cases h0 : k₀ = k
    · subst h0
      intro x hx
      simp only [assocSet, if_pos rfl, List.map_cons, List.mem_cons] at hx
      tauto
    · intro x hx
      simp only [assocSet, if_neg h0, List.map_cons, List.mem_cons] at hx
      rcases hx with hx | hx
      · right; simp [hx]
      · rcases ih x hx with h1 | h1
        · exact Or.inl h1
        · right; simp [h1]

theorem nodupKeys_assocSet {α : Type} (k : String) (v : α) (l : List (String × α)) :
    (l.map Prod.fst).Nodup → ((assocSet k v l).map Prod.fst).Nodup := by
  induction l with
  | nil => intro _; simp [assocSet]
  | cons hd tl ih =>
    intro h
    obtain ⟨k₀, v₀⟩ := hd
    simp only [List.map_cons, List.nodup_cons] at h
    by_cases h0 : k₀ = k
    · subst h0
      have hset : assocSet k₀ v ((k₀, v₀) :: tl) = (k₀, v) :: tl := by simp [assocSet]
      rw [hset, List.map_cons, List.nodup_cons]
      exact ⟨h.1, h.2⟩
    · have htl := ih h.2
      simp only [assocSet, if_neg h0, List.map_cons, List.nodup_cons]
      constructor
      · intro hmem
        rcases keys_assocSet_subset k v tl k₀ hmem with h1 | h1
        · exact h0 h1
        · exact h.1 h1
      · exact htl

theorem length_assocSet {α : Type} (k : String) (v : α) (l : List (String × α)) :
    (assocSet k v l).length =
      if k ∈ l.map Prod.fst then l.length else l.length + 1 := by
  induction l with
  | nil => simp [assocSet]
  | cons hd tl ih =>
    obtain ⟨k₀, v₀⟩ := hd
    by_cases h0 : k₀ = k
    · subst h0
      simp [assocSet]
    · have hk0 : ¬ k = k₀ := fun hs => h0 hs.symm
      simp only [assocSet, if_neg h0, List.length_cons, List.map_cons, List.mem_cons, ih]
      by_cases hk : k ∈ tl.map Prod.fst
      · simp [hk, hk0]
      · simp [hk, hk0]

/-! ## Scheduler tick claims -/

@[simp]
theorem updateAvgExecutionTime_successCount (m : AgentMetrics) (t : ℚ) :
    (BaseAgent.updateAvgExecutionTime m t).successCount = m.successCount := by
  unfold BaseAgent.updateAvgExecutionTime
  dsimp only
  split <;> rfl

@[simp]
theorem updateAvgExecutionTime_errorCount (m : AgentMetrics) (t : ℚ) :
    (BaseAgent.updateAvgExecutionTime m t).errorCount = m.errorCount := by
  unfold BaseAgent.updateAvgExecutionTime
  dsimp only
  split <;> rfl

@[simp]
theorem updateAvgExecutionTime_lastError (m : AgentMetrics) (t : ℚ) :
    (BaseAgent.updateAvgExecutionTime m t).lastError = m.lastError := by
  unfold BaseAgent.updateAvgExecutionTime
  dsimp only
  split <;> rfl

@[simp]
theorem updateAvgExecutionTime_lastRunAt (m : AgentMetrics) (t : ℚ) :
    (BaseAgent.updateAvgExecutionTime m t).lastRunAt = m.lastRunAt := by
  unfold BaseAgent.updateAvgExecutionTime
  dsimp only
  split <;> rfl

/-- C2: calling tick() while the agent's status is 'analyzing' or
'executing' never invokes execute() and leaves the agent's status, metrics
and config unchanged (single-flight per agent). -/
theorem tick_single_flight (st : AgentState) (execResult : Except String Unit)
    (startTime endTime : ℤ)
    (h : st.status = .analyzing ∨ st.status = .executing) :
    (BaseAgent.tick st execResult startTime endTime).invokedExecute = false ∧
    (BaseAgent.tick st execResult startTime endTime).state = st := by
  unfold BaseAgent.tick
  rw [if_pos h]
  exact ⟨rfl, rfl⟩

theorem tick_single_flight_witness :
    (busyAgent.status = .analyzing ∨ busyAgent.status = .executing) ∧
    (BaseAgent.tick busyAgent (Except.ok ()) 0 5).invokedExecute = false ∧
    (BaseAgent.tick busyAgent (Except.ok ()) 0 5).state = busyAgent :=
  ⟨Or.inl rfl, tick_single_flight busyAgent (Except.ok ()) 0 5 (Or.inl rfl)⟩

/-- C3: when a tick's execute() throws, tick() increments the error
counter, stores the error message, sets status 'error', emits an error
event, does not rethrow, and skips state persistence; a successful tick
increments the success counter, clears lastError, sets status 'idle', and
persists state. -/
theorem tick_error_asymmetry (st : AgentState) (msg : String) (t0 t1 : ℤ)
    (h : ¬(st.status = .analyzing ∨ st.status = .executing)) :
    ((BaseAgent.tick st (Except.error msg) t0 t1).state.metrics.errorCount
        = st.metrics.errorCount + 1 ∧
      (BaseAgent.tick st (Except.error msg) t0 t1).state.metrics.lastError = some msg ∧
      (BaseAgent.tick st (Except.error msg) t0 t1).state.status = .error ∧
      (BaseAgent.tick st (Except.error msg) t0 t1).emittedError = true ∧
      (BaseAgent.tick st (Except.error msg) t0 t1).raised = none ∧
      (BaseAgent.tick st (Except.error msg) t0 t1).persisted = false) ∧
    ((BaseAgent.tick st (Except.ok ()) t0 t1).state.metrics.successCount
        = st.metrics.successCount + 1 ∧
      (BaseAgent.tick st (Except.ok ()) t0 t1).state.metrics.lastError = none ∧
      (BaseAgent.tick st (Except.ok ()) t0 t1).state.status = .idle ∧
      (BaseAgent.tick st (Except.ok ()) t0 t1).persisted = true) := by
  unfold BaseAgent.tick
  simp only [if_neg h]
  simp

theorem tick_error_asymmetry_witness :
    ¬(idleAgent.status = .analyzing ∨ idleAgent.status = .executing) ∧
    ((BaseAgent.tick idleAgent (Except.error "boom") 0 5).state.metrics.errorCount
        = idleAgent.metrics.errorCount + 1 ∧
      (BaseAgent.tick idleAgent (Except.error "boom") 0 5).state.metrics.lastError
        = some "boom" ∧
      (BaseAgent.tick idleAgent (Except.error "boom") 0 5).state.status = .error ∧
      (BaseAgent.tick idleAgent (Except.error "boom") 0 5).emittedError = true ∧
      (BaseAgent.tick idleAgent (Except.error "boom") 0 5).raised = none ∧
      (BaseAgent.tick idleAgent (Except.error "boom") 0 5).persisted = false) ∧
    ((BaseAgent.tick idleAgent (Except.ok ()) 0 5).state.metrics.successCount
        = idleAgent.metrics.successCount + 1 ∧
      (BaseAgent.tick idleAgent (Except.ok ()) 0 5).state.metrics.lastError = none ∧
      (BaseAgent.tick idleAgent (Except.ok ()) 0 5).state.status = .idle ∧
      (BaseAgent.tick idleAgent (Except.ok ()) 0 5).persisted = true) :=
  ⟨by decide, tick_error_asymmetry idleAgent "boom" 0 5 (by decide)⟩

/-- C10: a failed tick never permanently disables an agent: after a tick
whose execute() threw (leaving status 'error' and leaving lastRunAt and
avgExecutionTimeMs unchanged), the next tick() is not skipped by the busy
guard — it sets status 'analyzing' and invokes execute() again. -/
theorem tick_error_recovery (st : AgentState) (msg : String) (t0 t1 t2 t3 : ℤ)
    (r2 : Except String Unit)
    (h : ¬(st.status = .analyzing ∨ st.status = .executing)) :
    (BaseAgent.tick st (Except.error msg) t0 t1).state.status = .error ∧
    (BaseAgent.tick st (Except.error msg) t0 t1).state.metrics.lastRunAt
      = st.metrics.lastRunAt ∧
    (BaseAgent.tick st (Except.error msg) t0 t1).state.metrics.avgExecutionTimeMs
      = st.metrics.avgExecutionTimeMs ∧
    (BaseAgent.tick ((BaseAgent.tick st (Except.error msg) t0 t1).state)
        r2 t2 t3).invokedExecute = true ∧
    (BaseAgent.tick ((BaseAgent.tick st (Except.error msg) t0 t1).state)
        r2 t2 t3).statusDuringExecute = some .analyzing := by
  unfold BaseAgent.tick
  simp only [if_neg h]
  cases r2 <;> simp

theorem tick_error_recovery_witness :
    ¬(idleAgent.status = .analyzing ∨ idleAgent.status = .executing) ∧
    ((BaseAgent.tick idleAgent (Except.error "boom") 0 5).state.status = .error ∧
     (BaseAgent.tick idleAgent (Except.error "boom") 0 5).state.metrics.lastRunAt
       = idleAgent.metrics.lastRunAt ∧
     (BaseAgent.tick idleAgent (Except.error "boom") 0 5).state.metrics.avgExecutionTimeMs
       = idleAgent.metrics.avgExecutionTimeMs ∧
     (BaseAgent.tick ((BaseAgent.tick idleAgent (Except.error "boom") 0 5).state)
         (Except.ok ()) 10 15).invokedExecute = true ∧
     (BaseAgent.tick ((BaseAgent.tick idleAgent (Except.error "boom") 0 5).state)
         (Except.ok ()) 10 15).statusDuringExecute = some .analyzing) :=
  ⟨by decide, tick_error_recovery idleAgent "boom" 0 5 10 15 (Except.ok ()) (by decide)⟩

/-! ## Execution Agent claims -/

/-- C6: addSignal leaves the state unchanged when the signal's confidence
is below the configured minimum, leaves it unchanged when some queued
signal has the opposite direction and a timestamp within the last 5
minutes (300000 ms), and otherwise appends the signal to the queue. -/
theorem addSignal_filters (st : ExecutionAgentState) (now : ℤ) (signal : TradeSignal) :
    (signal.confidence < st.execConfig.minConfidence →
      ExecutionAgent.addSignal st now signal = st) ∧
    ((∃ s ∈ st.pendingSignals,
        s.direction ≠ signal.direction ∧ s.timestamp > now - 300000) →
      ExecutionAgent.addSignal st now signal = st) ∧
    (¬ signal.confidence < st.execConfig.minConfidence →
      (∀ s ∈ st.pendingSignals,
        ¬(s.direction ≠ signal.direction ∧ s.timestamp > now - 300000)) →
      ExecutionAgent.addSignal st now signal
        = { st with pendingSignals := st.pendingSignals ++ [signal] }) := by
  refine ⟨fun hlow => ?_, fun hconf => ?_, fun hok hnoc => ?_⟩
  · simp [ExecutionAgent.addSignal, if_pos hlow]
  · unfold ExecutionAgent.addSignal
    by_cases hlow : signal.confidence < st.execConfig.minConfidence
    · rw [if_pos hlow]
    · rw [if_neg hlow]
      obtain ⟨s, hs, hd, ht⟩ := hconf
      have hany : st.pendingSignals.any
          (fun s => decide (s.direction ≠ signal.direction ∧ s.timestamp > now - 300000))
          = true := by
        rw [List.any_eq_true]
        exact ⟨s, hs, by simp [hd, ht]⟩
      rw [if_pos hany]
  · unfold ExecutionAgent.addSignal
    rw [if_neg hok]
    have hany : st.pendingSignals.any
        (fun s => decide (s.direction ≠ signal.direction ∧ s.timestamp > now - 300000))
        = false := by
      rw [List.any_eq_false]
      intro s hs
      simpa using hnoc s hs
    rw [if_neg (by rw [hany]; exact Bool.false_ne_true)]

theorem addSignal_filters_witness :
    (lowConfSignal.confidence < sampleExecState.execConfig.minConfidence ∧
      ExecutionAgent.addSignal sampleExecState 1000000 lowConfSignal = sampleExecState) ∧
    ((∃ s ∈ sampleExecState.pendingSignals,
        s.direction ≠ conflictSignal.direction ∧ s.timestamp > 1000000 - 300000) ∧
      ExecutionAgent.addSignal sampleExecState 1000000 conflictSignal = sampleExecState) ∧
    (¬ goodSignal.confidence < sampleExecState.execConfig.minConfidence ∧
      ExecutionAgent.addSignal sampleExecState 1000000 goodSignal
        = { sampleExecState with
            pendingSignals := sampleExecState.pendingSignals ++ [goodSignal] }) :=
  ⟨⟨by decide,
    (addSignal_filters sampleExecState 1000000 lowConfSignal).1 (by decide)⟩,
   ⟨⟨queuedSignal, by decide⟩,
    (addSignal_filters sampleExecState 1000000 conflictSignal).2.1
      ⟨queuedSignal, by decide⟩⟩,
   ⟨by decide,
    (addSignal_filters sampleExecState 1000000 goodSignal).2.2 (by decide) (by decide)⟩⟩

/-- C7: while now - lastTradeTime is below cooldownMs, a
processPendingSignals cycle places no order and leaves the whole state —
in particular the pending-signal queue and the executed-trade map —
unchanged, regardless of the confidence of any pending signal. -/
theorem cooldown_blocks_trades (st : ExecutionAgentState) (now t : ℤ)
    (runningPositions : List String) (env : ExecuteTradeEnv)
    (hlast : st.lastTradeTime = some t)
    (hcool : now - t < st.execConfig.cooldownMs) :
    ExecutionAgent.processPendingSignals st now runningPositions env = (st, none) := by
  unfold ExecutionAgent.processPendingSignals
  by_cases hq : st.pendingSignals.length = 0
  · rw [if_pos hq]
  · rw [if_neg hq]
    have hc : (match st.lastTradeTime with
        | some t => decide (now - t < st.execConfig.cooldownMs)
        | none => false) = true := by
      rw [hlast]
      simpa using hcool
    simp [hc]

theorem cooldown_blocks_trades_witness :
    cooldownExecState.lastTradeTime = some 950000 ∧
    1000000 - 950000 < cooldownExecState.execConfig.cooldownMs ∧
    ExecutionAgent.processPendingSignals cooldownExecState 1000000 []
        { riskCanOpenNewPosition := some true, tickerLastPrice := 50000,
          sizing := some { recommendedMargin := 1000, recommendedLeverage := 5,
                           stopLoss := 49000, takeProfit := 52000 },
          openedPositionId := some "pos-1" }
      = (cooldownExecState, none) :=
  ⟨rfl, by decide,
   cooldown_blocks_trades cooldownExecState 1000000 950000 []
     { riskCanOpenNewPosition := some true, tickerLastPrice := 50000,
       sizing := some { recommendedMargin := 1000, recommendedLeverage := 5,
                        stopLoss := 49000, takeProfit := 52000 },
       openedPositionId := some "pos-1" }
     rfl (by decide)⟩

/-- C8 counterexample: the coordinator's handler for a critical
daily-loss-limit risk alert does not clear the Execution Agent's pending
queue — the queued signal is still there afterwards — refuting the claim
that both trigger kinds produce both effects. -/
theorem riskAlert_leaves_queue :
    dailyLossAlert.level = .critical ∧ dailyLossAlert.type = "daily_loss_limit" ∧
    (SwarmCoordinator.onRiskAlert sampleExecState dailyLossAlert).pendingSignals
      = [queuedSignal] ∧
    [queuedSignal] ≠ ([] : List TradeSignal) := by
  refine ⟨rfl, rfl, ?_, by simp⟩
  decide

/-- C8 amended: the wired handler for a critical daily-loss-limit alert
force-disables auto-execute but leaves the pending queue unchanged, while
the wired handler for the stop-trading event force-disables auto-execute
and clears the pending queue. -/
theorem risk_halt_wiring (ex : ExecutionAgentState) (alert : RiskAlert)
    (hc : alert.level = .critical) (ht : alert.type = "daily_loss_limit") :
    ((SwarmCoordinator.onRiskAlert ex alert).execConfig.autoExecute = false ∧
     (SwarmCoordinator.onRiskAlert ex alert).pendingSignals = ex.pendingSignals) ∧
    ((SwarmCoordinator.onStopTrading ex).execConfig.autoExecute = false ∧
     (SwarmCoordinator.onStopTrading ex).pendingSignals = []) := by
  constructor
  · constructor <;>
      simp [SwarmCoordinator.onRiskAlert, ExecutionAgent.setAutoExecute, hc, ht]
  · constructor <;>
      simp [SwarmCoordinator.onStopTrading, ExecutionAgent.setAutoExecute,
        ExecutionAgent.clearPendingSignals]

theorem risk_halt_wiring_witness :
    dailyLossAlert.level = .critical ∧ dailyLossAlert.type = "daily_loss_limit" ∧
    (((SwarmCoordinator.onRiskAlert sampleExecState dailyLossAlert).execConfig.autoExecute
        = false ∧
      (SwarmCoordinator.onRiskAlert sampleExecState dailyLossAlert).pendingSignals
        = sampleExecState.pendingSignals) ∧
     ((SwarmCoordinator.onStopTrading sampleExecState).execConfig.autoExecute = false ∧
      (SwarmCoordinator.onStopTrading sampleExecState).pendingSignals = [])) :=
  ⟨rfl, rfl, risk_halt_wiring sampleExecState dailyLossAlert rfl rfl⟩

/-! ## Message Bus claims -/

theorem vote_pending_update (bus : MessageBus) (pid : String) (v : AgentVote)
    (p : TradeProposal) (hget : assocGet pid bus.proposals = some p)
    (hpend : p.status = .pending) :
    ∃ p', assocGet pid (MessageBus.vote bus pid v).proposals = some p' ∧
      p'.votes = assocSet v.agentId v p.votes := by
  have hnp : ¬ p.status ≠ ProposalStatus.pending := by simp [hpend]
  simp only [MessageBus.vote, hget, if_neg hnp]
  by_cases hq : (assocSet v.agentId v p.votes).length ≥ bus.minVotesRequired
  · rw [if_pos hq]
    have hget' : assocGet pid
        (assocSet pid { p with votes := assocSet v.agentId v p.votes } bus.proposals)
        = some { p with votes := assocSet v.agentId v p.votes } :=
      assocGet_assocSet_self _ _ _
    have hnp' : ¬ ({ p with votes := assocSet v.agentId v p.votes } : TradeProposal).status
        ≠ ProposalStatus.pending := by simp [hpend]
    simp only [MessageBus.evaluateConsensus, hget', if_neg hnp']
    exact ⟨_, assocGet_assocSet_self _ _ _, rfl⟩
  · rw [if_neg hq]
    exact ⟨_, assocGet_assocSet_self _ _ _, rfl⟩

/-- C5: a missing proposal id, or a proposal that is no longer pending,
makes vote() a no-op on the bus and makes evaluateConsensus() return null
with the bus unchanged — a resolved proposal is immutable under both. -/
theorem resolved_proposal_immutable (bus : MessageBus) (pid : String) (v : AgentVote)
    (h : assocGet pid bus.proposals = none ∨
         ∃ p, assocGet pid bus.proposals = some p ∧ p.status ≠ .pending) :
    MessageBus.vote bus pid v = bus ∧
    MessageBus.evaluateConsensus bus pid = (bus, none) := by
  rcases h with h | ⟨p, hget, hst⟩
  · constructor
    · unfold MessageBus.vote
      rw [h]
    · unfold MessageBus.evaluateConsensus
      rw [h]
  · constructor
    · unfold MessageBus.vote
      rw [hget]
      simp only [if_pos hst]
    · unfold MessageBus.evaluateConsensus
      rw [hget]
      simp only [if_pos hst]

theorem resolved_proposal_immutable_witness :
    (assocGet "prop-2" resolvedBus.proposals = some resolvedProposal ∧
     resolvedProposal.status ≠ ProposalStatus.pending) ∧
    (MessageBus.vote resolvedBus "prop-2" overVote = resolvedBus ∧
     MessageBus.evaluateConsensus resolvedBus "prop-2" = (resolvedBus, none)) :=
  ⟨⟨by decide, by decide⟩,
   resolved_proposal_immutable resolvedBus "prop-2" overVote
     (Or.inr ⟨resolvedProposal, by decide, by decide⟩)⟩

/-- C4: on a pending proposal, vote() keeps the vote map keyed uniquely by
agent id: the new vote is stored under its agent id, any other agent's
entry is untouched, key uniqueness is preserved, and the vote count grows
only when the agent had not voted before (so it never exceeds the number
of distinct voting agents). -/
theorem vote_map_one_entry_per_agent (bus : MessageBus) (pid : String) (v : AgentVote)
    (p : TradeProposal) (hget : assocGet pid bus.proposals = some p)
    (hpend : p.status = .pending)
    (hnd : (p.votes.map Prod.fst).Nodup) :
    ∃ p', assocGet pid (MessageBus.vote bus pid v).proposals = some p' ∧
      (p'.votes.map Prod.fst).Nodup ∧
      assocGet v.agentId p'.votes = some v ∧
      (∀ a, a ≠ v.agentId → assocGet a p'.votes = assocGet a p.votes) ∧
      p'.votes.length =
        (if v.agentId ∈ p.votes.map Prod.fst then p.votes.length
         else p.votes.length + 1) := by
  obtain ⟨p', h1, h2⟩ := vote_pending_update bus pid v p hget hpend
  refine ⟨p', h1, ?_, ?_, ?_, ?_⟩
  · rw [h2]
    exact nodupKeys_assocSet _ _ _ hnd
  · rw [h2]
    exact assocGet_assocSet_self _ _ _
  · intro a ha
    rw [h2]
    exact assocGet_assocSet_ne _ _ ha
  · rw [h2]
    exact length_assocSet _ _ _

theorem vote_map_one_entry_per_agent_witness :
    (assocGet "prop-1" consensusBus.proposals = some consensusProposal ∧
     consensusProposal.status = ProposalStatus.pending ∧
     (consensusProposal.votes.map Prod.fst).Nodup) ∧
    (∃ p', assocGet "prop-1"
        (MessageBus.vote consensusBus "prop-1" (mkVote "a1" .reject 20)).proposals
        = some p' ∧
      (p'.votes.map Prod.fst).Nodup ∧
      assocGet "a1" p'.votes = some (mkVote "a1" .reject 20) ∧
      (∀ a, a ≠ "a1" → assocGet a p'.votes = assocGet a consensusProposal.votes) ∧
      p'.votes.length =
        (if "a1" ∈ consensusProposal.votes.map Prod.fst then
          consensusProposal.votes.length
         else consensusProposal.votes.length + 1)) :=
  ⟨⟨by decide, rfl, by decide⟩,
   vote_map_one_entry_per_agent consensusBus "prop-1" (mkVote "a1" .reject 20)
     consensusProposal (by decide) rfl (by decide)⟩

/-- C1: on a pending proposal, evaluateConsensus returns a result that is
approved iff approval rate ≥ threshold AND mean approve-confidence ≥ 60
(with the 0-defaults of the claim), and stores status 'approved' when both
gates hold and 'rejected' otherwise. -/
theorem evaluateConsensus_two_gate (bus : MessageBus) (pid : String)
    (p : TradeProposal) (hget : assocGet pid bus.proposals = some p)
    (hpend : p.status = .pending) :
    ∃ r, (MessageBus.evaluateConsensus bus pid).2 = some r ∧
      (r.approved = true ↔
        (approvalRateOf p ≥ bus.consensusThreshold ∧ avgApproveConfidenceOf p ≥ 60)) ∧
      assocGet pid (MessageBus.evaluateConsensus bus pid).1.proposals =
        some { p with status :=
          if r.approved then ProposalStatus.approved else ProposalStatus.rejected } := by
  have hnp : ¬ p.status ≠ ProposalStatus.pending := by simp [hpend]
  simp only [MessageBus.evaluateConsensus, hget, if_neg hnp]
  refine ⟨_, rfl, ?_, ?_⟩
  · exact decide_eq_true_iff
  · exact assocGet_assocSet_self _ _ _

theorem evaluateConsensus_two_gate_witness :
    (assocGet "prop-1" consensusBus.proposals = some consensusProposal ∧
     consensusProposal.status = ProposalStatus.pending) ∧
    (∃ r, (MessageBus.evaluateConsensus consensusBus "prop-1").2 = some r ∧
      (r.approved = true ↔
        (approvalRateOf consensusProposal ≥ consensusBus.consensusThreshold ∧
         avgApproveConfidenceOf consensusProposal ≥ 60)) ∧
      assocGet "prop-1" (MessageBus.evaluateConsensus consensusBus "prop-1").1.proposals =
        some { consensusProposal with status :=
          if r.approved then ProposalStatus.approved else ProposalStatus.rejected }) ∧
    ((MessageBus.evaluateConsensus consensusBus "prop-1").2.map ConsensusResult.approved
      = some true) := by
  have h := evaluateConsensus_two_gate consensusBus "prop-1" consensusProposal
    (by decide) rfl
  obtain ⟨r, hr, hiff, hstore⟩ := h
  have hA : (approveVotesOf consensusProposal).length = 3 := by decide
  have hR : (rejectVotesOf consensusProposal).length = 1 := by decide
  have hS : ((approveVotesOf consensusProposal).map (fun v => v.confidence)).sum = 240 := by
    norm_num [approveVotesOf, consensusProposal, mkVote, List.filter,
      show (decide (VoteDecision.reject = VoteDecision.approve)) = false from rfl,
      show (decide (VoteDecision.abstain = VoteDecision.approve)) = false from rfl]
  have hgate : approvalRateOf consensusProposal ≥ consensusBus.consensusThreshold ∧
      avgApproveConfidenceOf consensusProposal ≥ 60 := by
    constructor
    · unfold approvalRateOf
      rw [hA, hR]
      norm_num [consensusBus]
    · unfold avgApproveConfidenceOf
      rw [hA, hS]
      norm_num
  have happ : r.approved = true := hiff.mpr hgate
  exact ⟨⟨by decide, rfl⟩, ⟨r, hr, hiff, hstore⟩, by rw [hr]; simp [happ]⟩

/-- C9 counterexample: createProposal records confidence 150 unclamped and
vote records a vote with confidence 150 unclamped — both outside [0,100] —
refuting the claim that these confidences are clamped. -/
theorem confidence_not_clamped :
    ((MessageBus.createProposal MessageBus.init "analyst" .long 150 "r" "prop-9" 0).2.confidence
        = 150 ∧ ¬ ((150 : ℚ) ≤ 100)) ∧
    (∃ p, assocGet "prop-9"
        (MessageBus.vote
          (MessageBus.createProposal MessageBus.init "analyst" .long 150 "r" "prop-9" 0).1
          "prop-9" overVote).proposals = some p ∧
      assocGet "agent-x" p.votes = some overVote ∧
      overVote.confidence = 150 ∧ ¬ ((150 : ℚ) ≤ 100)) := by
  refine ⟨⟨rfl, by norm_num⟩, ?_⟩
  refine ⟨{ id := "prop-9", direction := .long, confidence := 150, reason := "r",
            proposedBy := "analyst", timestamp := 0,
            votes := [("agent-x", overVote)], status := .pending }, ?_, ?_, rfl, by norm_num⟩
  · decide
  · decide

theorem confidenceAfterTrend_nonneg (summary : TechnicalSummary) :
    0 ≤ MarketAnalyst.confidenceAfterTrend summary := by
  unfold MarketAnalyst.confidenceAfterTrend
  dsimp only
  split_ifs <;> linarith [abs_nonneg summary.score]

theorem confidenceAfterMomentum_nonneg (summary : TechnicalSummary) :
    0 ≤ MarketAnalyst.confidenceAfterMomentum summary := by
  unfold MarketAnalyst.confidenceAfterMomentum
  dsimp only
  split_ifs <;> linarith [confidenceAfterTrend_nonneg summary]

theorem confidenceAfterPatterns_nonneg (summary : TechnicalSummary)
    (patterns : List String) :
    0 ≤ MarketAnalyst.confidenceAfterPatterns summary patterns := by
  unfold MarketAnalyst.confidenceAfterPatterns
  dsimp only
  split_ifs <;> linarith [confidenceAfterMomentum_nonneg summary]

/-- C9 amended: the Market Analyst recommendation confidence is clamped to
[0,100]; the confidence recorded by createProposal and the vote recorded
by vote() are stored exactly as given, without clamping. -/
theorem confidence_clamping_amended (summary : TechnicalSummary) (patterns : List String)
    (bus : MessageBus) (proposedBy : String) (dir : Direction) (conf : ℚ)
    (reason pidNew : String) (ts : ℤ) (pid : String) (v : AgentVote) (p : TradeProposal)
    (hget : assocGet pid bus.proposals = some p) (hpend : p.status = .pending) :
    (0 ≤ (MarketAnalyst.generateRecommendation summary patterns).confidence ∧
     (MarketAnalyst.generateRecommendation summary patterns).confidence ≤ 100) ∧
    ((MessageBus.createProposal bus proposedBy dir conf reason pidNew ts).2.confidence
      = conf) ∧
    (∃ p', assocGet pid (MessageBus.vote bus pid v).proposals = some p' ∧
      assocGet v.agentId p'.votes = some v) := by
  refine ⟨⟨?_, ?_⟩, rfl, ?_⟩
  · unfold MarketAnalyst.generateRecommendation
    dsimp only
    exact le_min (by norm_num) (confidenceAfterPatterns_nonneg summary patterns)
  · unfold MarketAnalyst.generateRecommendation
    dsimp only
    exact min_le_left _ _
  · obtain ⟨p', h1, h2⟩ := vote_pending_update bus pid v p hget hpend
    refine ⟨p', h1, ?_⟩
    rw [h2]
    exact assocGet_assocSet_self _ _ _

theorem confidence_clamping_amended_witness :
    (assocGet "prop-1" consensusBus.proposals = some consensusProposal ∧
     consensusProposal.status = ProposalStatus.pending) ∧
    ((0 ≤ (MarketAnalyst.generateRecommendation sampleSummary []).confidence ∧
      (MarketAnalyst.generateRecommendation sampleSummary []).confidence ≤ 100) ∧
     ((MessageBus.createProposal consensusBus "analyst" .long 150 "r" "p-new" 7).2.confidence
       = 150) ∧
     (∃ p', assocGet "prop-1"
         (MessageBus.vote consensusBus "prop-1" overVote).proposals = some p' ∧
       assocGet "agent-x" p'.votes = some overVote)) :=
  ⟨⟨by decide, rfl⟩,
   confidence_clamping_amended sampleSummary [] consensusBus "analyst" .long 150 "r"
     "p-new" 7 "prop-1" overVote consensusProposal (by decide) rfl⟩
